import Mathlib

/-!
Verification of `fortnitepy/friend.py` (classes `FriendBase`, `Friend`,
`PendingFriend`) against its specification.

The Python classes are shallowly embedded as Lean structures and pure
functions.  Stateful methods become functions from the object's field record
(plus the parameters of the call and the outcome of the external transport)
to a result record holding the raised/returned outcome, the new field record,
and the list of outbound transport calls issued.  The external collaborators
(`client.http`, the presence cache, ISO-8601 parsing) are passed in as
explicit parameters, following §9 of the spec ("abstract as a read-only
lookup capability injected into each object").  Timestamps are kept generic
in a type parameter `Datetime`; concrete instantiations in witnesses use
`Nat`.
-/

namespace Fortnitepy

/-- An `HTTPException` raised by the http layer carries a server-reported
`message_code` (see `errors.py`, used via `e.message_code` in `friend.py`). -/
structure HTTPException where
  message_code : String
deriving DecidableEq, Repr

/-- The error kinds an operation of `friend.py` can surface.  `valueError`
is Python's `ValueError` (the spec's `InvalidArgument`); `httpException`
re-raises a transport failure unchanged; `partyError` is `PartyError`
(the spec's `NotFound` for a missing party); `forbidden` is `Forbidden`. -/
inductive Err where
  | valueError (msg : String)
  | httpException (e : HTTPException)
  | partyError (msg : String)
  | forbidden (msg : String)
deriving DecidableEq, Repr

/-- The outbound transport calls `Friend`'s annotation mutators can issue
(`client.http.friends_set_nickname` and friends). -/
inductive OutboundCall where
  | friends_set_nickname (id nickname : String)
  | friends_remove_nickname (id : String)
  | friends_set_note (id note : String)
  | friends_remove_note (id : String)
deriving DecidableEq, Repr

/-- The field record of a `Friend` object: identity fields from `UserBase`
(`_id`, `_display_name`, `_external_auths`), friendship metadata from
`FriendBase` (`_status`, `_direction`, `_created_at`), and `Friend`'s own
slots (`_favorite`, `_nickname`, `_note`, `_last_logout`). -/
structure FriendData (Datetime : Type) where
  _id : String
  _display_name : String
  _external_auths : List String
  _status : String
  _direction : String
  _created_at : Datetime
  _favorite : Option Bool
  _nickname : Option String
  _note : Option String
  _last_logout : Option Datetime
deriving DecidableEq, Repr

/-- The inbound payload consumed by `_update` (§6 of the spec): `status`,
`direction`, `created` (ISO string), optional `favorite`, plus the identity
fields consumed by the base identity updater. -/
structure FriendPayload where
  id : String
  displayName : String
  externalAuths : List String
  status : String
  direction : String
  created : String
  favorite : Option Bool
deriving DecidableEq, Repr

/-- A friend-summary payload entry, with `alias` and `note` keys (the field
`alias` is spelled `alias_` because `alias` is a Lean keyword). -/
structure SummaryPayload where
  alias_ : String
  note : String
deriving DecidableEq, Repr

namespace Friend

variable {Datetime : Type}

/-- Modelled from the spec: `UserBase._update` is not among the provided
sources; per §4.1/§6 the base identity updater sets the identity fields
(`id`, `displayName`, `externalAuths`) from the payload. -/
def user_update (st : FriendData Datetime) (data : FriendPayload) :
    FriendData Datetime :=
  { st with
    _id := data.id
    _display_name := data.displayName
    _external_auths := data.externalAuths }

/-- `FriendBase._update`: delegates to the base identity updater, then sets
`_status`, `_direction` and `_created_at := client.from_iso(data['created'])`.
The ISO parser is passed in as `fromIso`. -/
def base_update (fromIso : String → Datetime) (st : FriendData Datetime)
    (data : FriendPayload) : FriendData Datetime :=
  { user_update st data with
    _status := data.status
    _direction := data.direction
    _created_at := fromIso data.created }

/-- `Friend._update`: base update plus `_favorite := data.get('favorite')`. -/
def _update (fromIso : String → Datetime) (st : FriendData Datetime)
    (data : FriendPayload) : FriendData Datetime :=
  { base_update fromIso st data with _favorite := data.favorite }

/-- `Friend.__init__`: runs the updater on the construction payload (via
`UserBase.__init__`), then sets `_last_logout`, `_nickname` and `_note` to
`None`.  The pre-`__init__` slots are irrelevant because every field is
assigned; we start from an arbitrary `st0`. -/
def init (fromIso : String → Datetime) (st0 : FriendData Datetime)
    (data : FriendPayload) : FriendData Datetime :=
  { _update fromIso st0 data with
    _last_logout := none
    _nickname := none
    _note := none }

/-- `Friend._update_last_logout`: pure assignment of `_last_logout`. -/
def _update_last_logout (st : FriendData Datetime) (dt : Datetime) :
    FriendData Datetime :=
  { st with _last_logout := some dt }

/-- `Friend._update_summary`: sets `_nickname` from `data['alias']` and
`_note` from `data['note']`, normalizing the empty string to `None`. -/
def _update_summary (st : FriendData Datetime) (data : SummaryPayload) :
    FriendData Datetime :=
  { st with
    _nickname := if data.alias_ ≠ "" then some data.alias_ else none
    _note := if data.note ≠ "" then some data.note else none }

/-- `FriendBase.inbound`: `self._direction == 'INBOUND'`. -/
def inbound (st : FriendData Datetime) : Bool :=
  st._direction == "INBOUND"

/-- `FriendBase.outgoing`: `self._direction == 'OUTGOING'`. -/
def outgoing (st : FriendData Datetime) : Bool :=
  st._direction == "OUTGOING"

/-- Result of a mutation method: the outcome (`ok` or a raised error), the
object's field record after the call, and the outbound calls issued. -/
structure OpResult (Datetime : Type) where
  outcome : Except Err Unit
  state : FriendData Datetime
  calls : List OutboundCall
deriving Repr

instance {ε α : Type} [DecidableEq ε] [DecidableEq α] :
    DecidableEq (Except ε α) := fun a b =>
  match a, b with
  | .ok x, .ok y =>
    if h : x = y then .isTrue (by rw [h])
    else .isFalse (by intro c; cases c; exact h rfl)
  | .error x, .error y =>
    if h : x = y then .isTrue (by rw [h])
    else .isFalse (by intro c; cases c; exact h rfl)
  | .ok _, .error _ => .isFalse (by intro c; cases c)
  | .error _, .ok _ => .isFalse (by intro c; cases c)

instance {Datetime : Type} [DecidableEq Datetime] :
    DecidableEq (OpResult Datetime) := fun a b =>
  decidable_of_iff
      (a.outcome = b.outcome ∧ a.state = b.state ∧ a.calls = b.calls)
    (by cases a; cases b; simp)

/-- The `message_code`s that `set_nickname`/`set_note` convert from
`HTTPException` to `ValueError` (the tuple `ignored` in the source). -/
def ignored : List String :=
  ["errors.com.epicgames.common.unsupported_media_type",
   "errors.com.epicgames.validation.validation_failed"]

/-- `Friend.set_nickname`: rejects lengths outside `[3,16]` with
`ValueError` before any transport call; otherwise issues
`friends_set_nickname` (its outcome is the `transport` parameter, `none`
meaning success), converting failures with an `ignored` message code to
`ValueError`, re-raising others unchanged, and assigning `_nickname` on
success only. -/
def set_nickname (st : FriendData Datetime) (nickname : String)
    (transport : Option HTTPException) : OpResult Datetime :=
  if ¬ (3 ≤ nickname.length ∧ nickname.length ≤ 16) then
    ⟨.error (.valueError "Invalid nickname length"), st, []⟩
  else
    match transport with
    | some e =>
      if e.message_code ∈ ignored then
        ⟨.error (.valueError "Invalid nickname"), st,
         [.friends_set_nickname st._id nickname]⟩
      else
        ⟨.error (.httpException e), st,
         [.friends_set_nickname st._id nickname]⟩
    | none =>
      ⟨.ok (), { st with _nickname := some nickname },
       [.friends_set_nickname st._id nickname]⟩

/-- `Friend.remove_nickname`: issues `friends_remove_nickname`; on success
clears `_nickname`; on failure re-raises unchanged, state untouched. -/
def remove_nickname (st : FriendData Datetime)
    (transport : Option HTTPException) : OpResult Datetime :=
  match transport with
  | some e =>
    ⟨.error (.httpException e), st, [.friends_remove_nickname st._id]⟩
  | none =>
    ⟨.ok (), { st with _nickname := none }, [.friends_remove_nickname st._id]⟩

/-- `Friend.set_note`: rejects lengths outside `[3,255]` with `ValueError`
before any transport call; otherwise issues `friends_set_note`, converting
failures with an `ignored` message code to `ValueError`, re-raising others
unchanged, and assigning `_note` on success only. -/
def set_note (st : FriendData Datetime) (note : String)
    (transport : Option HTTPException) : OpResult Datetime :=
  if ¬ (3 ≤ note.length ∧ note.length ≤ 255) then
    ⟨.error (.valueError "Invalid note length"), st, []⟩
  else
    match transport with
    | some e =>
      if e.message_code ∈ ignored then
        ⟨.error (.valueError "Invalid note"), st,
         [.friends_set_note st._id note]⟩
      else
        ⟨.error (.httpException e), st, [.friends_set_note st._id note]⟩
    | none =>
      ⟨.ok (), { st with _note := some note }, [.friends_set_note st._id note]⟩

/-- `Friend.remove_note`: issues `friends_remove_note`; on success clears
`_note`; on failure re-raises unchanged, state untouched. -/
def remove_note (st : FriendData Datetime)
    (transport : Option HTTPException) : OpResult Datetime :=
  match transport with
  | some e => ⟨.error (.httpException e), st, [.friends_remove_note st._id]⟩
  | none => ⟨.ok (), { st with _note := none }, [.friends_remove_note st._id]⟩

/-- A value in the mapping returned by `get_raw`: a string field, a parsed
timestamp, or the external-auth list. -/
inductive RawValue (Datetime : Type) where
  | str (s : String)
  | dt (d : Datetime)
  | auths (l : List String)
deriving DecidableEq, Repr

/-- Modelled from the spec: `UserBase.get_raw` is not among the provided
sources; per §3/§6 the identity portion of the serialized shape holds the
identity fields `id`, `displayName` and `externalAuths`. -/
def user_get_raw (st : FriendData Datetime) :
    List (String × RawValue Datetime) :=
  [("id", .str st._id),
   ("displayName", .str st._display_name),
   ("externalAuths", .auths st._external_auths)]

/-- `FriendBase.get_raw`: merges the base identity mapping with `status`,
`direction` and `created`. -/
def base_get_raw (st : FriendData Datetime) :
    List (String × RawValue Datetime) :=
  user_get_raw st ++
  [("status", .str st._status),
   ("direction", .str st._direction),
   ("created", .dt st._created_at)]

/-- `Friend` does not override `get_raw`; it inherits `FriendBase.get_raw`
unchanged. -/
def get_raw (st : FriendData Datetime) : List (String × RawValue Datetime) :=
  base_get_raw st

/-- The party information carried by a cached presence; `private_` models
the `private` attribute (a Lean keyword). -/
structure PartyInfo where
  private_ : Bool
deriving DecidableEq, Repr

/-- A cached presence: the availability flag read by `is_online` and the
party reference read by `join_party`. -/
structure Presence where
  available : Bool
  party : PartyInfo
deriving DecidableEq, Repr

/-- `Friend.is_online`: reads `client.get_presence(self.id)` from the
external presence cache (modelled as a lookup function); returns `False`
when no presence is cached, else the presence's `available` flag. -/
def is_online (cache : String → Option Presence)
    (st : FriendData Datetime) : Bool :=
  match cache st._id with
  | none => false
  | some pres => pres.available

/-- `Friend.join_party`: reads the last presence from the cache; raises
`PartyError` when none is cached, `Forbidden` when the presence's party is
private, and otherwise delegates to `_pre.party.join()` (modelled by the
`join` parameter over an opaque party-handle type `α`) and returns its
result. -/
def join_party {α : Type} (cache : String → Option Presence)
    (join : PartyInfo → Except Err α) (st : FriendData Datetime) :
    Except Err α :=
  match cache st._id with
  | none =>
    .error (.partyError "Could not join party. Reason: Party not found")
  | some _pre =>
    if _pre.party.private_ then
      .error (.forbidden "Could not join party. Reason: Party is private")
    else
      join _pre.party

/-- One entry of the `presence_get_last_online` response: the response maps
an account id to a list of such entries and the source reads
`presence[0]['last_online']`. -/
structure LastOnlineEntry where
  last_online : String
deriving DecidableEq, Repr

/-- `Friend.fetch_last_logout`: looks the friend's id up in the
last-online response; when absent, state is untouched and the cached
`last_logout` is returned; when present, `_last_logout` is set to the
parsed first entry and returned.  The outer `Option` is `none` exactly when
the source would raise an `IndexError` (`presence[0]` on an empty entry
list). -/
def fetch_last_logout (fromIso : String → Datetime)
    (presences : String → Option (List LastOnlineEntry))
    (st : FriendData Datetime) :
    Option (FriendData Datetime × Option Datetime) :=
  match presences st._id with
  | none => some (st, st._last_logout)
  | some entries =>
    match entries with
    | [] => none
    | e :: _ =>
      let st' := _update_last_logout st (fromIso e.last_online)
      some (st', st'._last_logout)

/-- The state-mutating operations a `Friend` object undergoes after
construction, for reasoning about reachable states. -/
inductive FriendOp (Datetime : Type) where
  | update (data : FriendPayload)
  | update_summary (data : SummaryPayload)
  | update_last_logout (dt : Datetime)
  | set_nickname (nickname : String) (transport : Option HTTPException)
  | remove_nickname (transport : Option HTTPException)
  | set_note (note : String) (transport : Option HTTPException)
  | remove_note (transport : Option HTTPException)
deriving Repr

/-- The state reached by one operation (the raised outcome, if any, is
irrelevant to the state invariant). -/
def apply_op (fromIso : String → Datetime) (st : FriendData Datetime) :
    FriendOp Datetime → FriendData Datetime
  | .update data => _update fromIso st data
  | .update_summary data => _update_summary st data
  | .update_last_logout dt => _update_last_logout st dt
  | .set_nickname n tr => (set_nickname st n tr).state
  | .remove_nickname tr => (remove_nickname st tr).state
  | .set_note n tr => (set_note st n tr).state
  | .remove_note tr => (remove_note st tr).state

/-- The state after a sequence of operations. -/
def run_ops (fromIso : String → Datetime) (st : FriendData Datetime) :
    List (FriendOp Datetime) → FriendData Datetime
  | [] => st
  | op :: rest => run_ops fromIso (apply_op fromIso st op) rest

/-- The length invariant of §3: `nickname`, when present, has length in
[3,16]; `note`, when present, has length in [3,255]. -/
def lengths_ok (st : FriendData Datetime) : Bool :=
  (st._nickname.all fun s => decide (3 ≤ s.length ∧ s.length ≤ 16)) &&
  (st._note.all fun s => decide (3 ≤ s.length ∧ s.length ≤ 255))

/-- A summary payload is benign when each of its values is empty (and will
be normalized to `None`) or within the corresponding length bounds; every
non-summary operation is benign. -/
def op_summary_ok : FriendOp Datetime → Bool
  | .update_summary d =>
    (d.alias_ == "" || decide (3 ≤ d.alias_.length ∧ d.alias_.length ≤ 16)) &&
    (d.note == "" || decide (3 ≤ d.note.length ∧ d.note.length ≤ 255))
  | _ => true

end Friend

/-- A concrete friend record used to instantiate theorems. -/
def st0 : FriendData Nat :=
  ⟨"id1", "Name", [], "ACCEPTED", "INBOUND", 0, none, none, none, none⟩

/-- A concrete construction payload used to instantiate theorems. -/
def payload0 : FriendPayload :=
  ⟨"id1", "Name", [], "ACCEPTED", "INBOUND", "2024-01-01T00:00:00Z", none⟩

open Friend

/-- Helper: `set_nickname` updates `_nickname` exactly on success and
leaves the whole state unchanged otherwise. -/
lemma set_nickname_atomic {Datetime : Type} (st : FriendData Datetime)
    (n : String) (tr : Option HTTPException) :
    ((Friend.set_nickname st n tr).outcome = .ok () →
      (Friend.set_nickname st n tr).state = { st with _nickname := some n }) ∧
    ((Friend.set_nickname st n tr).outcome ≠ .ok () →
      (Friend.set_nickname st n tr).state = st) := by
  unfold Friend.set_nickname
  split
  · simp
  · cases tr with
    | none => simp
    | some e =>
      by_cases hm : e.message_code ∈ Friend.ignored <;> simp [hm]

/-- Helper: `set_note` updates `_note` exactly on success and leaves the
whole state unchanged otherwise. -/
lemma set_note_atomic {Datetime : Type} (st : FriendData Datetime)
    (t : String) (tr : Option HTTPException) :
    ((Friend.set_note st t tr).outcome = .ok () →
      (Friend.set_note st t tr).state = { st with _note := some t }) ∧
    ((Friend.set_note st t tr).outcome ≠ .ok () →
      (Friend.set_note st t tr).state = st) := by
  unfold Friend.set_note
  split
  · simp
  · cases tr with
    | none => simp
    | some e =>
      by_cases hm : e.message_code ∈ Friend.ignored <;> simp [hm]

/-- Helper: `remove_nickname` clears `_nickname` exactly on success. -/
lemma remove_nickname_atomic {Datetime : Type} (st : FriendData Datetime)
    (tr : Option HTTPException) :
    ((Friend.remove_nickname st tr).outcome = .ok () →
      (Friend.remove_nickname st tr).state = { st with _nickname := none }) ∧
    ((Friend.remove_nickname st tr).outcome ≠ .ok () →
      (Friend.remove_nickname st tr).state = st) := by
  unfold Friend.remove_nickname
  cases tr <;> simp

/-- Helper: `remove_note` clears `_note` exactly on success. -/
lemma remove_note_atomic {Datetime : Type} (st : FriendData Datetime)
    (tr : Option HTTPException) :
    ((Friend.remove_note st tr).outcome = .ok () →
      (Friend.remove_note st tr).state = { st with _note := none }) ∧
    ((Friend.remove_note st tr).outcome ≠ .ok () →
      (Friend.remove_note st tr).state = st) := by
  unfold Friend.remove_note
  cases tr <;> simp

/-- C1: for every string whose length is outside [3,16] (resp. [3,255]),
`Friend.set_nickname` (resp. `Friend.set_note`) raises `ValueError`
(`InvalidArgument`) with no outbound transport call issued (`calls = []`)
and the object's state — in particular the `_nickname`/`_note` field —
unchanged. -/
theorem c1_length_validation_precedes_transport {Datetime : Type}
    (st : FriendData Datetime) (s : String) (tr : Option HTTPException) :
    (¬ (3 ≤ s.length ∧ s.length ≤ 16) →
      Friend.set_nickname st s tr =
        ⟨.error (.valueError "Invalid nickname length"), st, []⟩) ∧
    (¬ (3 ≤ s.length ∧ s.length ≤ 255) →
      Friend.set_note st s tr =
        ⟨.error (.valueError "Invalid note length"), st, []⟩) := by
  constructor <;> intro h <;>
    simp [Friend.set_nickname, Friend.set_note, h]

/-- Witness for C1 at the length-2 string "ab". -/
theorem c1_witness :
    Friend.set_nickname st0 "ab" none =
      ⟨.error (.valueError "Invalid nickname length"), st0, []⟩ ∧
    Friend.set_note st0 "ab" none =
      ⟨.error (.valueError "Invalid note length"), st0, []⟩ :=
  ⟨(c1_length_validation_precedes_transport st0 "ab" none).1 (by decide),
   (c1_length_validation_precedes_transport st0 "ab" none).2 (by decide)⟩

/-- C2: each of the four annotation mutations is atomic on the local
state: when the outcome is not success the state is exactly the input
state, and on success the state is the input state with only the requested
field set to the requested value (or cleared, for the remove operations). -/
theorem c2_mutations_atomic {Datetime : Type} (st : FriendData Datetime)
    (n t : String) (tr : Option HTTPException) :
    ((Friend.set_nickname st n tr).outcome ≠ .ok () →
      (Friend.set_nickname st n tr).state = st) ∧
    ((Friend.set_nickname st n tr).outcome = .ok () →
      (Friend.set_nickname st n tr).state = { st with _nickname := some n }) ∧
    ((Friend.set_note st t tr).outcome ≠ .ok () →
      (Friend.set_note st t tr).state = st) ∧
    ((Friend.set_note st t tr).outcome = .ok () →
      (Friend.set_note st t tr).state = { st with _note := some t }) ∧
    ((Friend.remove_nickname st tr).outcome ≠ .ok () →
      (Friend.remove_nickname st tr).state = st) ∧
    ((Friend.remove_nickname st tr).outcome = .ok () →
      (Friend.remove_nickname st tr).state = { st with _nickname := none }) ∧
    ((Friend.remove_note st tr).outcome ≠ .ok () →
      (Friend.remove_note st tr).state = st) ∧
    ((Friend.remove_note st tr).outcome = .ok () →
      (Friend.remove_note st tr).state = { st with _note := none }) :=
  ⟨(set_nickname_atomic st n tr).2, (set_nickname_atomic st n tr).1,
   (set_note_atomic st t tr).2, (set_note_atomic st t tr).1,
   (remove_nickname_atomic st tr).2, (remove_nickname_atomic st tr).1,
   (remove_note_atomic st tr).2, (remove_note_atomic st tr).1⟩

/-- Witness for C2: a failing transport leaves the state unchanged; a
successful one sets the nickname. -/
theorem c2_witness :
    (Friend.set_nickname st0 "abcd" (some ⟨"boom"⟩)).state = st0 ∧
    (Friend.set_nickname st0 "abcd" none).state =
      { st0 with _nickname := some "abcd" } :=
  ⟨(c2_mutations_atomic st0 "abcd" "abcd" (some ⟨"boom"⟩)).1 (by decide),
   (c2_mutations_atomic st0 "abcd" "abcd" none).2.1 (by decide)⟩

/-- C3: for in-range arguments, a transport failure whose `message_code`
is in the `ignored` set (`unsupported_media_type`, `validation_failed`) is
re-raised as `ValueError`, and any other transport failure is re-raised
unchanged as the original `HTTPException`. -/
theorem c3_transport_error_mapping {Datetime : Type}
    (st : FriendData Datetime) (n t : String) (e : HTTPException)
    (hn : 3 ≤ n.length ∧ n.length ≤ 16)
    (ht : 3 ≤ t.length ∧ t.length ≤ 255) :
    (e.message_code ∈ Friend.ignored →
      (Friend.set_nickname st n (some e)).outcome =
        .error (.valueError "Invalid nickname") ∧
      (Friend.set_note st t (some e)).outcome =
        .error (.valueError "Invalid note")) ∧
    (e.message_code ∉ Friend.ignored →
      (Friend.set_nickname st n (some e)).outcome =
        .error (.httpException e) ∧
      (Friend.set_note st t (some e)).outcome =
        .error (.httpException e)) := by
  refine ⟨fun hmem => ?_, fun hmem => ?_⟩ <;>
    simp [Friend.set_nickname, Friend.set_note, hn.1, hn.2, ht.1, ht.2, hmem]

/-- Witness for C3 at a `validation_failed` code and at an unrelated
code. -/
theorem c3_witness :
    (Friend.set_nickname st0 "abcd"
        (some ⟨"errors.com.epicgames.validation.validation_failed"⟩)).outcome =
      .error (.valueError "Invalid nickname") ∧
    (Friend.set_note st0 "abcd" (some ⟨"errors.net.other"⟩)).outcome =
      .error (.httpException ⟨"errors.net.other"⟩) :=
  ⟨((c3_transport_error_mapping st0 "abcd" "abcd"
      ⟨"errors.com.epicgames.validation.validation_failed"⟩
      (by decide) (by decide)).1 (by decide)).1,
   ((c3_transport_error_mapping st0 "abcd" "abcd"
      ⟨"errors.net.other"⟩
      (by decide) (by decide)).2 (by decide)).2⟩

/-- C4 fails as stated: `Friend` inherits `FriendBase.get_raw` without
overriding it, so its serialized mapping lacks the `Friend`-specific fields
`favorite`, `nickname`, `note` and `lastLogout` at the concrete record
`st0`. -/
theorem c4_counterexample :
    "favorite" ∉ (Friend.get_raw st0).map Prod.fst ∧
    "nickname" ∉ (Friend.get_raw st0).map Prod.fst ∧
    "note" ∉ (Friend.get_raw st0).map Prod.fst ∧
    "lastLogout" ∉ (Friend.get_raw st0).map Prod.fst := by
  decide

/-- C4 (amended): `FriendBase.get_raw` contains exactly the identity keys
plus `status`, `direction` and `created`; `Friend` inherits it unchanged,
so the `Friend` variant's serialization contains no additional keys —
`favorite`, `nickname`, `note` and `lastLogout` are absent. -/
theorem c4_serialize_fields {Datetime : Type} (st : FriendData Datetime) :
    (Friend.base_get_raw st).map Prod.fst =
      ["id", "displayName", "externalAuths", "status", "direction",
       "created"] ∧
    Friend.get_raw st = Friend.base_get_raw st ∧
    "favorite" ∉ (Friend.get_raw st).map Prod.fst ∧
    "nickname" ∉ (Friend.get_raw st).map Prod.fst ∧
    "note" ∉ (Friend.get_raw st).map Prod.fst ∧
    "lastLogout" ∉ (Friend.get_raw st).map Prod.fst := by
  refine ⟨rfl, rfl, ?_, ?_, ?_, ?_⟩ <;>
    simp [Friend.get_raw, Friend.base_get_raw, Friend.user_get_raw]

/-- Helper: a successful `set_nickname` implies the argument length was in
[3,16]. -/
lemma set_nickname_ok_length {Datetime : Type} (st : FriendData Datetime)
    (n : String) (tr : Option HTTPException) :
    (Friend.set_nickname st n tr).outcome = .ok () →
    3 ≤ n.length ∧ n.length ≤ 16 := by
  unfold Friend.set_nickname
  split
  next h => simp
  next h => exact fun _ => not_not.mp h

/-- Helper: a successful `set_note` implies the argument length was in
[3,255]. -/
lemma set_note_ok_length {Datetime : Type} (st : FriendData Datetime)
    (t : String) (tr : Option HTTPException) :
    (Friend.set_note st t tr).outcome = .ok () →
    3 ≤ t.length ∧ t.length ≤ 255 := by
  unfold Friend.set_note
  split
  next h => simp
  next h => exact fun _ => not_not.mp h

/-- Helper: each single operation with a benign summary payload preserves
the length invariant. -/
lemma lengths_ok_step {Datetime : Type} (fromIso : String → Datetime)
    (st : FriendData Datetime) (op : FriendOp Datetime)
    (h1 : Friend.lengths_ok st = true)
    (h2 : Friend.op_summary_ok op = true) :
    Friend.lengths_ok (Friend.apply_op fromIso st op) = true := by
  cases op with
  | update data =>
    simpa [Friend.apply_op, Friend._update, Friend.base_update,
           Friend.user_update, Friend.lengths_ok] using h1
  | update_last_logout dt =>
    simpa [Friend.apply_op, Friend._update_last_logout,
           Friend.lengths_ok] using h1
  | update_summary d =>
    simp only [Friend.op_summary_ok, Bool.and_eq_true, Bool.or_eq_true,
      beq_iff_eq, decide_eq_true_eq] at h2
    simp only [Friend.apply_op, Friend._update_summary, Friend.lengths_ok,
      Bool.and_eq_true] at h1 ⊢
    constructor
    · rcases h2.1 with h | h
      · simp [h]
      · by_cases he : d.alias_ = "" <;> simp [he, h.1, h.2]
    · rcases h2.2 with h | h
      · simp [h]
      · by_cases he : d.note = "" <;> simp [he, h.1, h.2]
  | set_nickname n tr =>
    by_cases ho : (Friend.set_nickname st n tr).outcome = .ok ()
    · have hb := set_nickname_ok_length st n tr ho
      have hst := (set_nickname_atomic st n tr).1 ho
      simp only [Friend.lengths_ok, Bool.and_eq_true] at h1 ⊢
      simp only [Friend.apply_op, hst]
      exact ⟨by simp [hb.1, hb.2], h1.2⟩
    · have hst := (set_nickname_atomic st n tr).2 ho
      simp only [Friend.apply_op, hst]
      exact h1
  | remove_nickname tr =>
    by_cases ho : (Friend.remove_nickname st tr).outcome = .ok ()
    · have hst := (remove_nickname_atomic st tr).1 ho
      simp only [Friend.lengths_ok, Bool.and_eq_true] at h1 ⊢
      simp only [Friend.apply_op, hst]
      exact ⟨by simp, h1.2⟩
    · have hst := (remove_nickname_atomic st tr).2 ho
      simp only [Friend.apply_op, hst]
      exact h1
  | set_note t tr =>
    by_cases ho : (Friend.set_note st t tr).outcome = .ok ()
    · have hb := set_note_ok_length st t tr ho
      have hst := (set_note_atomic st t tr).1 ho
      simp only [Friend.lengths_ok, Bool.and_eq_true] at h1 ⊢
      simp only [Friend.apply_op, hst]
      exact ⟨h1.1, by simp [hb.1, hb.2]⟩
    · have hst := (set_note_atomic st t tr).2 ho
      simp only [Friend.apply_op, hst]
      exact h1
  | remove_note tr =>
    by_cases ho : (Friend.remove_note st tr).outcome = .ok ()
    · have hst := (remove_note_atomic st tr).1 ho
      simp only [Friend.lengths_ok, Bool.and_eq_true] at h1 ⊢
      simp only [Friend.apply_op, hst]
      exact ⟨h1.1, by simp⟩
    · have hst := (remove_note_atomic st tr).2 ho
      simp only [Friend.apply_op, hst]
      exact h1

/-- C5 fails as stated: `_update_summary` imposes no length bounds, so a
single summary update with `alias = "ab"` (length 2) leaves a freshly
constructed friend with a non-null nickname of length outside [3,16]. -/
theorem c5_counterexample :
    (Friend.run_ops String.length
        (Friend.init String.length st0 payload0)
        [.update_summary ⟨"ab", "hey"⟩])._nickname = some "ab" ∧
    ¬ (3 ≤ ("ab" : String).length) := by
  decide

/-- C5 (amended): the length invariant holds after every sequence of
operations in which each `_update_summary` payload's `alias` is empty or
has length in [3,16] and its `note` is empty or has length in [3,255];
the setter, remove, update and logout operations preserve it
unconditionally. -/
theorem c5_lengths_invariant {Datetime : Type} (fromIso : String → Datetime)
    (st : FriendData Datetime) (ops : List (FriendOp Datetime))
    (h1 : Friend.lengths_ok st = true)
    (h2 : ∀ op ∈ ops, Friend.op_summary_ok op = true) :
    Friend.lengths_ok (Friend.run_ops fromIso st ops) = true := by
  induction ops generalizing st with
  | nil => simpa [Friend.run_ops] using h1
  | cons op rest ih =>
    simp only [Friend.run_ops]
    exact ih (Friend.apply_op fromIso st op)
      (lengths_ok_step fromIso st op h1 (h2 op (by simp)))
      (fun o ho => h2 o (by simp [ho]))

/-- Witness for C5 (amended) on a fresh friend, a benign summary update and
a successful nickname set. -/
theorem c5_witness :
    Friend.lengths_ok (Friend.run_ops String.length
      (Friend.init String.length st0 payload0)
      [.update_summary ⟨"", "hey"⟩, .set_nickname "abc" none]) = true :=
  c5_lengths_invariant String.length
    (Friend.init String.length st0 payload0)
    [.update_summary ⟨"", "hey"⟩, .set_nickname "abc" none]
    (by decide)
    (by intro op hop
        simp only [List.mem_cons, List.not_mem_nil, or_false] at hop
        rcases hop with h | h <;> (rw [h]; decide))

/-- C6: `join_party` raises `PartyError` (the not-found case) when no
presence is cached for the friend's id, raises `Forbidden` when the cached
presence's party is private, and otherwise delegates to the party's join
operation and returns its result. -/
theorem c6_join_party {Datetime α : Type} (cache : String → Option Presence)
    (join : PartyInfo → Except Err α) (st : FriendData Datetime) :
    (cache st._id = none →
      Friend.join_party cache join st =
        .error (.partyError "Could not join party. Reason: Party not found")) ∧
    (∀ p, cache st._id = some p → p.party.private_ = true →
      Friend.join_party cache join st =
        .error (.forbidden "Could not join party. Reason: Party is private")) ∧
    (∀ p, cache st._id = some p → p.party.private_ = false →
      Friend.join_party cache join st = join p.party) := by
  refine ⟨fun h => ?_, fun p hp hpriv => ?_, fun p hp hpriv => ?_⟩
  · simp [Friend.join_party, h]
  · simp [Friend.join_party, hp, hpriv]
  · simp [Friend.join_party, hp, hpriv]

/-- Witness for C6 on an empty cache, a private party and an open party. -/
theorem c6_witness :
    Friend.join_party (fun _ => none) (fun _ => (.ok 0 : Except Err Nat))
        st0 =
      .error (.partyError "Could not join party. Reason: Party not found") ∧
    Friend.join_party (fun _ => some ⟨false, ⟨true⟩⟩)
        (fun _ => (.ok 0 : Except Err Nat)) st0 =
      .error (.forbidden "Could not join party. Reason: Party is private") ∧
    Friend.join_party (fun _ => some ⟨true, ⟨false⟩⟩)
        (fun _ => (.ok 0 : Except Err Nat)) st0 = .ok 0 :=
  ⟨(c6_join_party (fun _ => none) (fun _ => .ok 0) st0).1 rfl,
   (c6_join_party (fun _ => some ⟨false, ⟨true⟩⟩) (fun _ => .ok 0) st0).2.1
     ⟨false, ⟨true⟩⟩ rfl rfl,
   (c6_join_party (fun _ => some ⟨true, ⟨false⟩⟩) (fun _ => .ok 0) st0).2.2
     ⟨true, ⟨false⟩⟩ rfl rfl⟩

/-- C7: `is_online` returns `false` when the presence cache has no entry
for the friend's id, and the cached presence's `available` flag when an
entry exists. -/
theorem c7_is_online {Datetime : Type} (cache : String → Option Presence)
    (st : FriendData Datetime) :
    (cache st._id = none → Friend.is_online cache st = false) ∧
    (∀ p, cache st._id = some p →
      Friend.is_online cache st = p.available) := by
  refine ⟨fun h => ?_, fun p hp => ?_⟩
  · simp [Friend.is_online, h]
  · simp [Friend.is_online, hp]

/-- Witness for C7 on an empty cache and on a cached available presence. -/
theorem c7_witness :
    Friend.is_online (fun _ => none) st0 = false ∧
    Friend.is_online (fun _ => some ⟨true, ⟨false⟩⟩) st0 = true :=
  ⟨(c7_is_online (fun _ => none) st0).1 rfl,
   (c7_is_online (fun _ => some ⟨true, ⟨false⟩⟩) st0).2 ⟨true, ⟨false⟩⟩ rfl⟩

/-- C8: for a valid direction (`INBOUND` or `OUTGOING`), exactly one of the
derived booleans `inbound` and `outgoing` is true. -/
theorem c8_direction_mutex {Datetime : Type} (st : FriendData Datetime)
    (h : st._direction = "INBOUND" ∨ st._direction = "OUTGOING") :
    (Friend.inbound st = true ∧ Friend.outgoing st = false) ∨
    (Friend.inbound st = false ∧ Friend.outgoing st = true) := by
  rcases h with h | h <;>
    simp [Friend.inbound, Friend.outgoing, h]

/-- Witness for C8 at the inbound record `st0`. -/
theorem c8_witness :
    (Friend.inbound st0 = true ∧ Friend.outgoing st0 = false) ∨
    (Friend.inbound st0 = false ∧ Friend.outgoing st0 = true) :=
  c8_direction_mutex st0 (Or.inl rfl)

/-- C9: when the last-online response has an entry list for the friend's
id, `fetch_last_logout` sets `_last_logout` to the parsed first entry and
returns it; when the id is absent, it leaves the state unchanged and
returns the previous cached value, raising nothing. -/
theorem c9_fetch_last_logout {Datetime : Type} (fromIso : String → Datetime)
    (presences : String → Option (List LastOnlineEntry))
    (st : FriendData Datetime) :
    (presences st._id = none →
      Friend.fetch_last_logout fromIso presences st =
        some (st, st._last_logout)) ∧
    (∀ e rest, presences st._id = some (e :: rest) →
      Friend.fetch_last_logout fromIso presences st =
        some ({ st with _last_logout := some (fromIso e.last_online) },
              some (fromIso e.last_online))) := by
  refine ⟨fun h => ?_, fun e rest h => ?_⟩
  · simp [Friend.fetch_last_logout, h]
  · simp [Friend.fetch_last_logout, Friend._update_last_logout, h]

/-- Witness for C9 on an absent id and on a one-entry response. -/
theorem c9_witness :
    Friend.fetch_last_logout String.length (fun _ => none) st0 =
      some (st0, st0._last_logout) ∧
    Friend.fetch_last_logout String.length (fun _ => some [⟨"abc"⟩]) st0 =
      some ({ st0 with _last_logout := some (String.length "abc") },
            some (String.length "abc")) :=
  ⟨(c9_fetch_last_logout String.length (fun _ => none) st0).1 rfl,
   (c9_fetch_last_logout String.length (fun _ => some [⟨"abc"⟩]) st0).2
     ⟨"abc"⟩ [] rfl⟩

/-- C10: immediately after construction, `_nickname`, `_note` and
`_last_logout` are all `None` whatever the payload holds, and the payload
updater `_update` never touches these three fields. -/
theorem c10_constructed_fields_none {Datetime : Type}
    (fromIso : String → Datetime) (pre : FriendData Datetime)
    (data : FriendPayload) :
    (Friend.init fromIso pre data)._nickname = none ∧
    (Friend.init fromIso pre data)._note = none ∧
    (Friend.init fromIso pre data)._last_logout = none ∧
    (Friend._update fromIso pre data)._nickname = pre._nickname ∧
    (Friend._update fromIso pre data)._note = pre._note ∧
    (Friend._update fromIso pre data)._last_logout = pre._last_logout :=
  ⟨rfl, rfl, rfl, rfl, rfl, rfl⟩

end Fortnitepy
